import Mathlib

/-!
Verification of the origin-gated request router of the magic-snap
repository (src/packages/snap/src/index.ts and
src/packages/snap/src/permissions.ts), against its natural-language
specification.

The embedding is shallow: the permission table, the permission check, the
two request handlers, the entropy derivation and the lazy keyring accessor
are translated into executable Lean definitions.  Collaborators that live
outside the repository (the SimpleKeyring backend, the host persistence
and entropy services, the keyring-api dispatcher) are modelled as opaque
parameters supplied through an environment record, and every call a
handler makes to a collaborator is recorded in an effect trace so that
"no other component is invoked" style properties can be stated.
-/

namespace MagicSnap

/-- Modelled from the spec: the `InternalMethod` enum of
src/packages/snap/src/permissions.ts (string values copied from the
source verbatim). -/
def InternalMethod.ToggleSyncApprovals : String := "snap.internal.toggleSynchronousApprovals"

/-- String value of `InternalMethod.IsSynchronousMode` in permissions.ts. -/
def InternalMethod.IsSynchronousMode : String := "snap.internal.isSynchronousMode"

/-- String value of `InternalMethod.CreateAccountWithPrivateKey` in permissions.ts. -/
def InternalMethod.CreateAccountWithPrivateKey : String := "snap.internal.createAccountWithPrivateKey"

/-- Modelled from the spec: the `KeyringRpcMethod` enum comes from the
external package `@metamask/keyring-api`, which is not part of this
repository's sources; the spec describes it as "a fixed closed set of
keyring-protocol names" (list/get/create/update/delete/export account;
list/get/submit/approve/reject request).  The string values are the
published wire names of that protocol; only their distinctness matters
for the claims below. -/
def KeyringRpcMethod.ListAccounts : String := "keyring_listAccounts"

/-- Wire name of the get-account keyring-protocol method. -/
def KeyringRpcMethod.GetAccount : String := "keyring_getAccount"

/-- Wire name of the create-account keyring-protocol method. -/
def KeyringRpcMethod.CreateAccount : String := "keyring_createAccount"

/-- Wire name of the filter-account-chains keyring-protocol method. -/
def KeyringRpcMethod.FilterAccountChains : String := "keyring_filterAccountChains"

/-- Wire name of the update-account keyring-protocol method. -/
def KeyringRpcMethod.UpdateAccount : String := "keyring_updateAccount"

/-- Wire name of the delete-account keyring-protocol method. -/
def KeyringRpcMethod.DeleteAccount : String := "keyring_deleteAccount"

/-- Wire name of the export-account keyring-protocol method. -/
def KeyringRpcMethod.ExportAccount : String := "keyring_exportAccount"

/-- Wire name of the list-requests keyring-protocol method. -/
def KeyringRpcMethod.ListRequests : String := "keyring_listRequests"

/-- Wire name of the get-request keyring-protocol method. -/
def KeyringRpcMethod.GetRequest : String := "keyring_getRequest"

/-- Wire name of the submit-request keyring-protocol method. -/
def KeyringRpcMethod.SubmitRequest : String := "keyring_submitRequest"

/-- Wire name of the approve-request keyring-protocol method. -/
def KeyringRpcMethod.ApproveRequest : String := "keyring_approveRequest"

/-- Wire name of the reject-request keyring-protocol method. -/
def KeyringRpcMethod.RejectRequest : String := "keyring_rejectRequest"

/-- The `originPermissions` map of src/packages/snap/src/permissions.ts,
entry for entry.  A JS `Map<string, string[]>` built from a literal list
of pairs is embedded as an association list; `Map.get` is exact string
lookup (`mapGet` below). -/
def originPermissions : List (String × List String) :=
  [ ("metamask",
      [ KeyringRpcMethod.ListAccounts,
        KeyringRpcMethod.GetAccount,
        KeyringRpcMethod.FilterAccountChains,
        KeyringRpcMethod.DeleteAccount,
        KeyringRpcMethod.ListRequests,
        KeyringRpcMethod.GetRequest,
        KeyringRpcMethod.SubmitRequest,
        KeyringRpcMethod.RejectRequest ]),
    ("http://localhost:8000",
      [ KeyringRpcMethod.ListAccounts,
        KeyringRpcMethod.GetAccount,
        KeyringRpcMethod.CreateAccount,
        KeyringRpcMethod.FilterAccountChains,
        KeyringRpcMethod.UpdateAccount,
        KeyringRpcMethod.DeleteAccount,
        KeyringRpcMethod.ExportAccount,
        KeyringRpcMethod.ListRequests,
        KeyringRpcMethod.GetRequest,
        KeyringRpcMethod.ApproveRequest,
        KeyringRpcMethod.RejectRequest,
        InternalMethod.ToggleSyncApprovals,
        InternalMethod.IsSynchronousMode,
        InternalMethod.CreateAccountWithPrivateKey ]),
    ("https://metamask.github.io",
      [ KeyringRpcMethod.ListAccounts,
        KeyringRpcMethod.GetAccount,
        KeyringRpcMethod.CreateAccount,
        KeyringRpcMethod.FilterAccountChains,
        KeyringRpcMethod.UpdateAccount,
        KeyringRpcMethod.DeleteAccount,
        KeyringRpcMethod.ExportAccount,
        KeyringRpcMethod.ListRequests,
        KeyringRpcMethod.GetRequest,
        KeyringRpcMethod.ApproveRequest,
        KeyringRpcMethod.RejectRequest,
        InternalMethod.ToggleSyncApprovals,
        InternalMethod.IsSynchronousMode,
        InternalMethod.CreateAccountWithPrivateKey ]) ]

/-- Exact-match lookup in an association list: the embedding of
`Map.get` on a `Map<string, string[]>`. -/
def mapGet (table : List (String × List String)) (key : String) : Option (List String) :=
  (table.find? (fun entry => entry.fst == key)).map Prod.snd

/-- The `hasPermission` function of index.ts, line for line:
`originPermissions.get(origin)?.includes(method) ?? false`.  It is a
total Lean function of its two string arguments, hence pure and free of
side effects and error conditions by construction. -/
def hasPermission (origin method : String) : Bool :=
  ((mapGet originPermissions origin).map (fun methods => methods.contains method)).getD false

/-- Opaque result values produced by the backend collaborator (account
objects, flags, keyring-protocol responses).  The router never inspects
them, so a string stands in for the JSON value. -/
abbrev Value := String

/-- An inbound generic (RPC) request.  The handler in index.ts reads only
`request.method`; any params are never consulted by the router itself. -/
structure RpcRequest where
  method : String
  deriving DecidableEq, Repr

/-- An inbound keyring-protocol request: its method name plus an opaque
payload standing for the rest of the request object, so that "the entire
request object is forwarded unmodified" is expressible. -/
structure KeyringRequest where
  method : String
  payload : String
  deriving DecidableEq, Repr

/-- One observable call made by the router to a collaborator.  Every
theorem about "which components are invoked" is stated over a trace of
these effects. -/
inductive Effect where
  /-- A `logger.debug` call (logging is an out-of-scope collaborator). -/
  | logDebug (message : String)
  /-- A `snap.request` call to the host.  `salt` records the salt param
  sent with the request (`none` when no salt field is present) and
  `version` the version param, exactly as built in `getEntropy`. -/
  | snapRequest (method : String) (salt : Option String) (version : Nat)
  /-- A `getState()` call to the persistence collaborator. -/
  | getStateCall
  /-- A `new SimpleKeyring(state)` construction. -/
  | constructSimpleKeyring
  /-- A `keyring.toggleSyncApprovals()` backend call. -/
  | toggleSyncApprovalsCall
  /-- A `keyring.isSynchronousMode()` backend call. -/
  | isSynchronousModeCall
  /-- A `keyring.createAccount({ privateKey })` backend call. -/
  | createAccountCall (privateKey : String)
  /-- A `handleKeyringRequest(keyring, request)` dispatcher call,
  carrying the very request object that was forwarded. -/
  | handleKeyringRequestCall (request : KeyringRequest)
  deriving DecidableEq, Repr

/-- Failures surfaced by the router.  `plainError` embeds the untyped
`throw new Error(message)`; `methodNotSupported` embeds
`MethodNotSupportedError`; `collaboratorFailure` embeds a collaborator's
failure propagated unchanged (carrying that collaborator's message
verbatim). -/
inductive SnapError where
  | plainError (message : String)
  | methodNotSupported (method : String)
  | collaboratorFailure (message : String)
  deriving DecidableEq, Repr

/-- Modelled from the spec: the behaviour of the out-of-scope
collaborators during one inbound call.  `cached` says whether the
module-level `keyring` variable is already populated; the remaining
fields give each collaborator's response (`Except.error` = the
collaborator fails with that message). -/
structure Env where
  cached : Bool
  stateLoad : Except String Unit
  entropy : Except String String
  toggleResult : Except String Value
  isSyncResult : Except String Value
  createAccountResult : String → Except String Value
  keyringHandler : KeyringRequest → Except String Value

/-- Lift a collaborator's outcome into the router's error type: success
is passed through unchanged, failure is propagated carrying the
collaborator's message verbatim. -/
def liftCollab {α : Type} (x : Except String α) : Except SnapError α :=
  match x with
  | Except.error e => Except.error (SnapError.collaboratorFailure e)
  | Except.ok a => Except.ok a

/-- Sequential view of `getKeyring()` in index.ts within a single call:
if the module-level variable is populated, return it with no collaborator
call; otherwise call `getState()` and, on success, construct the
`SimpleKeyring`.  (The interleaving-sensitive behaviour of `getKeyring`
across overlapping calls is modelled separately below.) -/
def getKeyringSeq (env : Env) : Except SnapError Unit × List Effect :=
  if env.cached then (Except.ok (), [])
  else
    match env.stateLoad with
    | Except.error e =>
        (Except.error (SnapError.collaboratorFailure e), [Effect.getStateCall])
    | Except.ok _ =>
        (Except.ok (), [Effect.getStateCall, Effect.constructSimpleKeyring])

/-- Equality of router outcomes is decidable, so the closed evaluation
theorems below can be settled by computation. -/
instance exceptDecEq {ε α : Type} [DecidableEq ε] [DecidableEq α] :
    DecidableEq (Except ε α) := fun x y =>
  match x, y with
  | Except.ok a, Except.ok b =>
      if h : a = b then isTrue (by rw [h]) else isFalse (by simp [h])
  | Except.error e, Except.error f =>
      if h : e = f then isTrue (by rw [h]) else isFalse (by simp [h])
  | Except.ok _, Except.error _ => isFalse (by simp)
  | Except.error _, Except.ok _ => isFalse (by simp)

/-- The `remove0x` helper of `@metamask/utils` (not part of this
repository): strips a leading hex prefix when present, otherwise returns
the string unchanged (in the library: a conditional on
`value.startsWith` returning `value.substring(2)`, embedded here as a
match on the string's first two characters so that it evaluates by
computation). -/
def remove0x (s : String) : String :=
  match s.data with
  | '0' :: 'x' :: rest => String.mk rest
  | _ => s

/-- The `getEntropy` function of index.ts, line for line: it performs
`snap.request({ method: 'snap_getEntropy', params: { version: 1 } })` —
the params object carries only `version: 1` and NO salt field (the salt
argument of the recorded effect is therefore `none`) — and applies
`remove0x` to the result. -/
def getEntropy (env : Env) : Except SnapError String × List Effect :=
  (liftCollab (env.entropy.map remove0x),
   [Effect.snapRequest "snap_getEntropy" none 1])

/-- The message of the untyped `Error` thrown by both handlers on a
failed permission check, character for character. -/
def unauthorizedMessage (origin method : String) : String :=
  "Origin '" ++ origin ++ "' is not allowed to call '" ++ method ++ "'"

/-- The `onRpcRequest` handler of index.ts: log, check permission (throw
a plain `Error` when it fails), then switch on the three custom methods,
defaulting to `MethodNotSupportedError`.  Returns the call's outcome
together with the trace of collaborator calls made. -/
def onRpcRequest (env : Env) (origin : String) (request : RpcRequest) :
    Except SnapError Value × List Effect :=
  let logTrace : List Effect := [Effect.logDebug ("RPC request origin=" ++ origin)]
  if hasPermission origin request.method = false then
    (Except.error (SnapError.plainError (unauthorizedMessage origin request.method)),
     logTrace)
  else if request.method == InternalMethod.ToggleSyncApprovals then
    match getKeyringSeq env with
    | (Except.error e, keyringTrace) => (Except.error e, logTrace ++ keyringTrace)
    | (Except.ok _, keyringTrace) =>
        (liftCollab env.toggleResult,
         logTrace ++ keyringTrace ++ [Effect.toggleSyncApprovalsCall])
  else if request.method == InternalMethod.IsSynchronousMode then
    match getKeyringSeq env with
    | (Except.error e, keyringTrace) => (Except.error e, logTrace ++ keyringTrace)
    | (Except.ok _, keyringTrace) =>
        (liftCollab env.isSyncResult,
         logTrace ++ keyringTrace ++ [Effect.isSynchronousModeCall])
  else if request.method == InternalMethod.CreateAccountWithPrivateKey then
    match getEntropy env with
    | (Except.error e, entropyTrace) => (Except.error e, logTrace ++ entropyTrace)
    | (Except.ok entropyHex, entropyTrace) =>
        match getKeyringSeq env with
        | (Except.error e, keyringTrace) =>
            (Except.error e, logTrace ++ entropyTrace ++ keyringTrace)
        | (Except.ok _, keyringTrace) =>
            (liftCollab (env.createAccountResult entropyHex),
             logTrace ++ entropyTrace ++ keyringTrace ++
               [Effect.createAccountCall entropyHex])
  else
    (Except.error (SnapError.methodNotSupported request.method), logTrace)

/-- The `onKeyringRequest` handler of index.ts: log, check permission
(throw the same plain `Error` when it fails), obtain the keyring and
forward the entire request object to `handleKeyringRequest`, with no
branching on the method name. -/
def onKeyringRequest (env : Env) (origin : String) (request : KeyringRequest) :
    Except SnapError Value × List Effect :=
  let logTrace : List Effect := [Effect.logDebug ("Keyring request origin=" ++ origin)]
  if hasPermission origin request.method = false then
    (Except.error (SnapError.plainError (unauthorizedMessage origin request.method)),
     logTrace)
  else
    match getKeyringSeq env with
    | (Except.error e, keyringTrace) => (Except.error e, logTrace ++ keyringTrace)
    | (Except.ok _, keyringTrace) =>
        (liftCollab (env.keyringHandler request),
         logTrace ++ keyringTrace ++ [Effect.handleKeyringRequestCall request])

/-- A concrete, fully successful collaborator environment used by the
closed evaluation theorems: no keyring cached yet, the host answers the
entropy request with a prefixed hex string, and every backend operation
succeeds with a distinctive value. -/
def sampleEnv : Env where
  cached := false
  stateLoad := Except.ok ()
  entropy := Except.ok "0xabc123"
  toggleResult := Except.ok "toggled"
  isSyncResult := Except.ok "sync-mode"
  createAccountResult := fun privateKey => Except.ok ("account-" ++ privateKey)
  keyringHandler := fun request =>
    Except.ok ("handled-" ++ request.method ++ "-" ++ request.payload)

/-- Global state shared by all calls to `getKeyring()` in index.ts under
the host's cooperative execution model.  `keyring` is the module-level
`let keyring: SimpleKeyring` variable (`none` = still `undefined`);
constructed instances are identified by the `Nat` drawn from `nextId`,
so reference identity is identity of that number.  `loads` counts
`getState()` invocations and `constructions` counts
`new SimpleKeyring(state)` constructions. -/
structure KeyringGlobal where
  keyring : Option Nat
  nextId : Nat
  loads : Nat
  constructions : Nat
  deriving DecidableEq, Repr

/-- The control point of one in-flight `getKeyring()` call.  The body
runs synchronously from entry up to `await getState()` (one atomic
segment) and again from the resumption of that await to the return (the
second atomic segment); `awaitingState` is the suspension point between
them. -/
inductive KeyringTask where
  | notStarted
  | awaitingState
  | doneOk (instanceId : Nat)
  | doneErr (message : String)
  deriving DecidableEq, Repr

/-- One atomic segment of `getKeyring()`: from `notStarted`, the code
checks the module variable — populated means return it at once,
unpopulated means invoke `getState()` and suspend; from `awaitingState`,
a failed load rejects the call (assigning nothing), while a successful
load re-checks the module variable and only constructs (and caches) a
`SimpleKeyring` when it is still unpopulated, finally returning the
module variable's value.  `outcome` is the result the pending
`getState()` promise settles with; it is only consulted when resuming
from `awaitingState`. -/
def getKeyringStep (g : KeyringGlobal) (t : KeyringTask)
    (outcome : Except String Unit) : KeyringGlobal × KeyringTask :=
  match t with
  | KeyringTask.notStarted =>
      match g.keyring with
      | some i => (g, KeyringTask.doneOk i)
      | none => ({ g with loads := g.loads + 1 }, KeyringTask.awaitingState)
  | KeyringTask.awaitingState =>
      match outcome with
      | Except.error e => (g, KeyringTask.doneErr e)
      | Except.ok _ =>
          match g.keyring with
          | some i => (g, KeyringTask.doneOk i)
          | none =>
              ({ g with
                  keyring := some g.nextId
                  nextId := g.nextId + 1
                  constructions := g.constructions + 1 },
               KeyringTask.doneOk g.nextId)
  | KeyringTask.doneOk i => (g, KeyringTask.doneOk i)
  | KeyringTask.doneErr e => (g, KeyringTask.doneErr e)

/-- Two overlapping `getKeyring()` calls over the shared global state:
the configuration of the cooperative system. -/
structure KeyringSys where
  globalState : KeyringGlobal
  task0 : KeyringTask
  task1 : KeyringTask
  deriving DecidableEq, Repr

/-- Run one scheduled event: the Bool picks which call's next atomic
segment runs, the `Except` is the outcome its pending load (if any)
settles with.  A finished call is left unchanged, so every list of
events is a valid schedule. -/
def stepSys (s : KeyringSys) (ev : Bool × Except String Unit) : KeyringSys :=
  if ev.fst then
    let p := getKeyringStep s.globalState s.task1 ev.snd
    { s with globalState := p.fst, task1 := p.snd }
  else
    let p := getKeyringStep s.globalState s.task0 ev.snd
    { s with globalState := p.fst, task0 := p.snd }

/-- Run a whole schedule, one event at a time. -/
def runSys (s : KeyringSys) (sched : List (Bool × Except String Unit)) : KeyringSys :=
  sched.foldl stepSys s

/-- The process's initial configuration: module variable `undefined`,
nothing loaded or constructed, both calls not yet started. -/
def initSys : KeyringSys :=
  ⟨⟨none, 0, 0, 0⟩, KeyringTask.notStarted, KeyringTask.notStarted⟩

/-- A call that finished successfully received exactly the instance held
by the module-level cache. -/
def taskAgrees (g : KeyringGlobal) (t : KeyringTask) : Bool :=
  match t with
  | KeyringTask.doneOk i => g.keyring == some i
  | _ => true

/-- The inductive invariant of the cooperative system: the construction
count is 0 while the cache is unpopulated and 1 once it is populated,
and every successfully finished call returned the cached instance. -/
def sysConsistent (s : KeyringSys) : Bool :=
  (match s.globalState.keyring with
   | none => s.globalState.constructions == 0
   | some _ => s.globalState.constructions == 1) &&
  taskAgrees s.globalState s.task0 && taskAgrees s.globalState s.task1

/-- The canonical overlapping interleaving: both calls enter (and both
invoke `getState()`) before either resumes; then both resume. -/
def overlapSched : List (Bool × Except String Unit) :=
  [(false, Except.ok ()), (true, Except.ok ()),
   (false, Except.ok ()), (true, Except.ok ())]

/-- Claim C1: `hasPermission origin method` is true iff `origin` has an
entry in `originPermissions` and `method` is a literal member of that
entry's method list; for any origin without an entry (malformed and
empty strings included) it is false.  Purity, totality and the absence
of error conditions hold by construction: `hasPermission` is a total
Lean function into `Bool`. -/
theorem hasPermission_correct :
    (∀ origin method : String,
      hasPermission origin method = true ↔
        ∃ methods, mapGet originPermissions origin = some methods ∧ method ∈ methods) ∧
    (∀ origin method : String,
      mapGet originPermissions origin = none → hasPermission origin method = false) := by
  constructor
  · intro origin method
    unfold hasPermission
    cases h : mapGet originPermissions origin with
    | none => simp [h]
    | some methods => simp [h]
  · intro origin method h
    unfold hasPermission
    simp [h]

/-- Witness for C1: the empty-string origin has no entry in the table
and is denied. -/
theorem hasPermission_correct_witness :
    mapGet originPermissions "" = none ∧
      hasPermission "" KeyringRpcMethod.ListAccounts = false :=
  ⟨by decide, hasPermission_correct.2 "" KeyringRpcMethod.ListAccounts (by decide)⟩

/-- Claim C5: the permission table has exactly the three origins
`metamask`, `http://localhost:8000` and `https://metamask.github.io`;
`metamask` is restricted to the eight-method read/approve subset, the
two development origins share the full account CRUD + approve set plus
the three custom methods, and `metamask` calling the create-account
keyring method is rejected with the authorization error. -/
theorem permissionTable_contents :
    originPermissions.map Prod.fst =
      ["metamask", "http://localhost:8000", "https://metamask.github.io"] ∧
    mapGet originPermissions "metamask" =
      some [KeyringRpcMethod.ListAccounts, KeyringRpcMethod.GetAccount,
        KeyringRpcMethod.FilterAccountChains, KeyringRpcMethod.DeleteAccount,
        KeyringRpcMethod.ListRequests, KeyringRpcMethod.GetRequest,
        KeyringRpcMethod.SubmitRequest, KeyringRpcMethod.RejectRequest] ∧
    mapGet originPermissions "http://localhost:8000" =
      some [KeyringRpcMethod.ListAccounts, KeyringRpcMethod.GetAccount,
        KeyringRpcMethod.CreateAccount, KeyringRpcMethod.FilterAccountChains,
        KeyringRpcMethod.UpdateAccount, KeyringRpcMethod.DeleteAccount,
        KeyringRpcMethod.ExportAccount, KeyringRpcMethod.ListRequests,
        KeyringRpcMethod.GetRequest, KeyringRpcMethod.ApproveRequest,
        KeyringRpcMethod.RejectRequest, InternalMethod.ToggleSyncApprovals,
        InternalMethod.IsSynchronousMode, InternalMethod.CreateAccountWithPrivateKey] ∧
    mapGet originPermissions "https://metamask.github.io" =
      mapGet originPermissions "http://localhost:8000" ∧
    hasPermission "metamask" KeyringRpcMethod.CreateAccount = false ∧
    (onKeyringRequest sampleEnv "metamask" ⟨KeyringRpcMethod.CreateAccount, "req-1"⟩).fst =
      Except.error (SnapError.plainError
        (unauthorizedMessage "metamask" KeyringRpcMethod.CreateAccount)) := by
  refine ⟨by decide, by decide, by decide, by decide, by decide, by decide⟩

/-- Claim C2: when the permission check fails, each handler fails with
the authorization error naming the origin and the method, and — over any
number of repetitions of the keyring-call handler — the trace contains
nothing but debug-log entries: no state load, no `SimpleKeyring`
construction, no entropy request and no backend call. -/
theorem unauthorized_no_collaborators
    (env : Env) (origin : String) (rpcReq : RpcRequest) (keyReq : KeyringRequest) (n : Nat)
    (hr : hasPermission origin rpcReq.method = false)
    (hk : hasPermission origin keyReq.method = false) :
    (onRpcRequest env origin rpcReq).fst =
        Except.error (SnapError.plainError (unauthorizedMessage origin rpcReq.method)) ∧
    (onKeyringRequest env origin keyReq).fst =
        Except.error (SnapError.plainError (unauthorizedMessage origin keyReq.method)) ∧
    (∀ e, e ∈ (onRpcRequest env origin rpcReq).snd ++
        (List.replicate n (onKeyringRequest env origin keyReq).snd).flatten →
      ∃ m, e = Effect.logDebug m) := by
  refine ⟨?_, ?_, ?_⟩
  · simp [onRpcRequest, hr]
  · simp [onKeyringRequest, hk]
  · intro e he
    simp [onRpcRequest, onKeyringRequest, hr, hk, List.mem_flatten,
      List.mem_replicate] at he
    rcases he with h | ⟨-, h⟩ <;> exact ⟨_, h⟩

/-- Witness for C2: the unknown origin `https://evil.example` is
rejected by the generic-call handler with the authorization error. -/
theorem unauthorized_no_collaborators_witness :
    (onRpcRequest sampleEnv "https://evil.example" ⟨KeyringRpcMethod.ListAccounts⟩).fst =
      Except.error (SnapError.plainError
        (unauthorizedMessage "https://evil.example" KeyringRpcMethod.ListAccounts)) :=
  (unauthorized_no_collaborators sampleEnv "https://evil.example"
    ⟨KeyringRpcMethod.ListAccounts⟩ ⟨KeyringRpcMethod.ListAccounts, "payload-1"⟩ 2
    (by decide) (by decide)).1

/-- Claim C3, evaluated at the end-to-end scenario input (origin
`https://metamask.github.io`, method
`snap.internal.createAccountWithPrivateKey`): the trace shows that the
host entropy request is made WITHOUT any salt parameter (the recorded
salt argument is `none`, where the claim and the source's own doc
comment promise the fixed salt label), while the remaining steps of the
claim do hold — the hex prefix is stripped from the host's answer, the
stripped value is passed as the private-key material to the backend's
account creation, and the backend's account object is returned
untransformed. -/
theorem createAccount_entropy_salt_missing :
    (onRpcRequest sampleEnv "https://metamask.github.io"
        ⟨InternalMethod.CreateAccountWithPrivateKey⟩).snd =
      [ Effect.logDebug "RPC request origin=https://metamask.github.io",
        Effect.snapRequest "snap_getEntropy" none 1,
        Effect.getStateCall, Effect.constructSimpleKeyring,
        Effect.createAccountCall "abc123" ] ∧
    (onRpcRequest sampleEnv "https://metamask.github.io"
        ⟨InternalMethod.CreateAccountWithPrivateKey⟩).fst = Except.ok "account-abc123" ∧
    remove0x "0xabc123" = "abc123" ∧
    sampleEnv.createAccountResult "abc123" = Except.ok "account-abc123" := by
  refine ⟨by decide, by decide, by decide, by decide⟩

/-- Claim C6: an authorized generic call whose method is none of the
three custom methods fails with `MethodNotSupportedError` naming the
method — keyring-protocol methods sent to this handler included. -/
theorem rpc_unmatched_method (env : Env) (origin : String) (request : RpcRequest)
    (hperm : hasPermission origin request.method = true)
    (h1 : request.method ≠ InternalMethod.ToggleSyncApprovals)
    (h2 : request.method ≠ InternalMethod.IsSynchronousMode)
    (h3 : request.method ≠ InternalMethod.CreateAccountWithPrivateKey) :
    (onRpcRequest env origin request).fst =
      Except.error (SnapError.methodNotSupported request.method) := by
  simp [onRpcRequest, hperm, h1, h2, h3]

/-- Witness for C6: `keyring_getRequest` is permitted for `metamask`
but, sent to the generic-call handler, yields `MethodNotSupportedError`
rather than being cross-routed. -/
theorem rpc_unmatched_method_witness :
    (onRpcRequest sampleEnv "metamask" ⟨KeyringRpcMethod.GetRequest⟩).fst =
      Except.error (SnapError.methodNotSupported KeyringRpcMethod.GetRequest) :=
  rpc_unmatched_method sampleEnv "metamask" ⟨KeyringRpcMethod.GetRequest⟩
    (by decide) (by decide) (by decide) (by decide)

/-- Claim C7: an authorized keyring call (with the keyring obtained
successfully) forwards the very request object to the backend's generic
keyring-request entry point and its outcome — success value or failure —
is returned through `liftCollab` unchanged; the right-hand side never
inspects `request.method`, so the handler performs no method-name
branching of its own. -/
theorem keyring_request_forwarded (env : Env) (origin : String) (request : KeyringRequest)
    (hperm : hasPermission origin request.method = true)
    (hok : (getKeyringSeq env).fst = Except.ok ()) :
    (onKeyringRequest env origin request).fst = liftCollab (env.keyringHandler request) ∧
    Effect.handleKeyringRequestCall request ∈ (onKeyringRequest env origin request).snd := by
  rcases hg : getKeyringSeq env with ⟨r, keyringTrace⟩
  rw [hg] at hok
  simp only at hok
  subst hok
  constructor
  · simp [onKeyringRequest, hperm, hg]
  · simp [onKeyringRequest, hperm, hg]

/-- Witness for C7: the end-to-end scenario — origin `metamask`, method
`keyring_getRequest` — is authorized, forwarded to the backend, and the
backend's result is returned unchanged. -/
theorem keyring_request_forwarded_witness :
    (onKeyringRequest sampleEnv "metamask" ⟨KeyringRpcMethod.GetRequest, "request-42"⟩).fst =
      liftCollab (sampleEnv.keyringHandler ⟨KeyringRpcMethod.GetRequest, "request-42"⟩) ∧
    Effect.handleKeyringRequestCall ⟨KeyringRpcMethod.GetRequest, "request-42"⟩ ∈
      (onKeyringRequest sampleEnv "metamask" ⟨KeyringRpcMethod.GetRequest, "request-42"⟩).snd :=
  keyring_request_forwarded sampleEnv "metamask" ⟨KeyringRpcMethod.GetRequest, "request-42"⟩
    (by decide) (by decide)

/-- Claim C10: on a failed permission check both handlers produce the
same untyped error — the `plainError` constructor, never
`methodNotSupported` — with the identical message format, so the two
handlers' unauthorized rejections are indistinguishable. -/
theorem unauthorized_error_identical (env1 env2 : Env) (origin m payload : String)
    (h : hasPermission origin m = false) :
    (onRpcRequest env1 origin ⟨m⟩).fst =
      Except.error (SnapError.plainError
        ("Origin '" ++ origin ++ "' is not allowed to call '" ++ m ++ "'")) ∧
    (onKeyringRequest env2 origin ⟨m, payload⟩).fst = (onRpcRequest env1 origin ⟨m⟩).fst := by
  constructor <;> simp [onRpcRequest, onKeyringRequest, h, unauthorizedMessage]

/-- Witness for C10: both handlers reject `https://evil.example` with
the reference-identical plain error value. -/
theorem unauthorized_error_identical_witness :
    (onRpcRequest sampleEnv "https://evil.example" ⟨KeyringRpcMethod.GetAccount⟩).fst =
      Except.error (SnapError.plainError
        ("Origin '" ++ "https://evil.example" ++ "' is not allowed to call '" ++
          KeyringRpcMethod.GetAccount ++ "'")) ∧
    (onKeyringRequest sampleEnv "https://evil.example"
        ⟨KeyringRpcMethod.GetAccount, "payload-2"⟩).fst =
      (onRpcRequest sampleEnv "https://evil.example" ⟨KeyringRpcMethod.GetAccount⟩).fst :=
  unauthorized_error_identical sampleEnv sampleEnv "https://evil.example"
    KeyringRpcMethod.GetAccount "payload-2" (by decide)

/-- Preservation: one scheduled segment of either `getKeyring()` call
keeps the system invariant. -/
theorem sysConsistent_step (s : KeyringSys) (ev : Bool × Except String Unit)
    (h : sysConsistent s = true) : sysConsistent (stepSys s ev) = true := by
  obtain ⟨⟨k, nid, ld, cs⟩, t0, t1⟩ := s
  obtain ⟨b, o⟩ := ev
  cases b <;> cases t0 <;> cases t1 <;> cases k <;> cases o <;>
    simp_all [sysConsistent, stepSys, getKeyringStep, taskAgrees] <;> omega

/-- The invariant holds after any schedule, by induction on the
schedule. -/
theorem sysConsistent_run (sched : List (Bool × Except String Unit)) (s : KeyringSys)
    (h : sysConsistent s = true) : sysConsistent (runSys s sched) = true := by
  induction sched generalizing s with
  | nil => exact h
  | cons ev rest ih => exact ih (stepSys s ev) (sysConsistent_step s ev h)

/-- The invariant holds along every execution from the initial
configuration. -/
theorem run_from_init_consistent (sched : List (Bool × Except String Unit)) :
    sysConsistent (runSys initSys sched) = true :=
  sysConsistent_run sched initSys (by decide)

/-- A consistent configuration has seen at most one construction. -/
theorem consistent_constructions_le_one (s : KeyringSys) (h : sysConsistent s = true) :
    s.globalState.constructions ≤ 1 := by
  unfold sysConsistent at h
  rcases s with ⟨⟨k, nid, ld, cs⟩, t0, t1⟩
  cases k <;> simp_all

/-- In a consistent configuration two successfully finished calls
received the same instance, and it is the cached one. -/
theorem consistent_same_instance (s : KeyringSys) (h : sysConsistent s = true)
    (i j : Nat) (h0 : s.task0 = KeyringTask.doneOk i) (h1 : s.task1 = KeyringTask.doneOk j) :
    i = j ∧ s.globalState.keyring = some i := by
  rcases s with ⟨⟨k, nid, ld, cs⟩, t0, t1⟩
  simp only at h0 h1
  subst h0; subst h1
  unfold sysConsistent taskAgrees at h
  simp only [Bool.and_eq_true, beq_iff_eq] at h
  obtain ⟨⟨-, hk0⟩, hk1⟩ := h
  rw [hk0] at hk1
  injection hk1 with hij
  exact ⟨hij, hk0⟩

/-- Claim C9: under every interleaving of two overlapping first calls to
`getKeyring()`, at most one `SimpleKeyring` is constructed and assigned
to the cache and both callers that complete successfully receive that
same cached instance — even though, as the canonical overlapping
schedule shows, the state-loading await is entered (and `getState()`
invoked) twice before the cache is populated. -/
theorem concurrent_first_calls_single_instance :
    (∀ sched : List (Bool × Except String Unit),
      (runSys initSys sched).globalState.constructions ≤ 1) ∧
    (∀ sched : List (Bool × Except String Unit), ∀ i j : Nat,
      (runSys initSys sched).task0 = KeyringTask.doneOk i →
      (runSys initSys sched).task1 = KeyringTask.doneOk j →
      i = j ∧ (runSys initSys sched).globalState.keyring = some i) ∧
    ((runSys initSys overlapSched).globalState.loads = 2 ∧
     (runSys initSys overlapSched).task0 = KeyringTask.doneOk 0 ∧
     (runSys initSys overlapSched).task1 = KeyringTask.doneOk 0) :=
  ⟨fun sched => consistent_constructions_le_one _ (run_from_init_consistent sched),
   fun sched i j h0 h1 =>
     consistent_same_instance _ (run_from_init_consistent sched) i j h0 h1,
   by decide, by decide, by decide⟩

/-- Witness for C9: on the canonical overlapping schedule both calls end
with instance 0 and the cache holds it. -/
theorem concurrent_first_calls_single_instance_witness :
    (0 : Nat) = 0 ∧ (runSys initSys overlapSched).globalState.keyring = some 0 :=
  concurrent_first_calls_single_instance.2.1 overlapSched 0 0 (by decide) (by decide)

/-- Counterexample to C4 as stated: on the canonical overlapping
interleaving of two first calls the persistence load runs twice, so "the
persistence load occurs at most once per process lifetime" fails. -/
theorem backend_load_once_counterexample :
    ¬ ((runSys initSys overlapSched).globalState.loads ≤ 1) := by decide

/-- Claim C4 as amended: the accessor constructs at most one
`BackendInstance` per process lifetime and overlapping first calls
resolve to the reference-identical instance, and once the cache is
populated a subsequent call returns the cached instance immediately
without re-reading state (the global state — load count included — is
unchanged); the persistence load, however, may occur more than once
across overlapping first calls (at most once per call). -/
theorem backend_singleton_amended :
    (∀ sched : List (Bool × Except String Unit),
      (runSys initSys sched).globalState.constructions ≤ 1 ∧
      (∀ i j : Nat,
        (runSys initSys sched).task0 = KeyringTask.doneOk i →
        (runSys initSys sched).task1 = KeyringTask.doneOk j → i = j)) ∧
    (∀ g : KeyringGlobal, ∀ i : Nat, ∀ o : Except String Unit,
      g.keyring = some i →
      getKeyringStep g KeyringTask.notStarted o = (g, KeyringTask.doneOk i)) := by
  constructor
  · intro sched
    refine ⟨consistent_constructions_le_one _ (run_from_init_consistent sched), ?_⟩
    intro i j h0 h1
    exact (consistent_same_instance _ (run_from_init_consistent sched) i j h0 h1).1
  · intro g i o h
    simp [getKeyringStep, h]

/-- Witness for the amended C4: with instance 7 cached, a fresh call
returns it at once and the global state (loads included) is unchanged. -/
theorem backend_singleton_amended_witness :
    getKeyringStep ⟨some 7, 8, 1, 1⟩ KeyringTask.notStarted (Except.ok ()) =
      (⟨some 7, 8, 1, 1⟩, KeyringTask.doneOk 7) :=
  backend_singleton_amended.2 ⟨some 7, 8, 1, 1⟩ 7 (Except.ok ()) (by decide)

/-- Claim C8: a failed persistence load during first access rejects the
call with the very failure message, caches nothing (module variable
still unpopulated, zero constructions), and a later call retries from
scratch and succeeds; at the request-handler level the load failure
reaches the caller verbatim as a propagated collaborator failure. -/
theorem load_failure_not_cached (e : String) :
    (runSys initSys [(false, Except.error e), (false, Except.error e)]).task0 =
        KeyringTask.doneErr e ∧
    (runSys initSys [(false, Except.error e), (false, Except.error e)]).globalState.keyring
        = none ∧
    (runSys initSys
        [(false, Except.error e), (false, Except.error e)]).globalState.constructions = 0 ∧
    (runSys (runSys initSys [(false, Except.error e), (false, Except.error e)])
        [(true, Except.ok ()), (true, Except.ok ())]).task1 = KeyringTask.doneOk 0 ∧
    (runSys (runSys initSys [(false, Except.error e), (false, Except.error e)])
        [(true, Except.ok ()), (true, Except.ok ())]).globalState.constructions = 1 ∧
    (getKeyringSeq { sampleEnv with stateLoad := Except.error e }).fst =
      Except.error (SnapError.collaboratorFailure e) := by
  refine ⟨?_, ?_, ?_, ?_, ?_, ?_⟩ <;>
    simp [runSys, stepSys, getKeyringStep, initSys, getKeyringSeq, sampleEnv]

end MagicSnap
